import Mathlib

/-!
Verification of the declarative command execution framework of the
`azure-cli` repository, as exercised by the generated command
`network vnet check-ip-address`
(`src/azure-cli/azure/cli/command_modules/network/aaz/2019_03_01_hybrid/network/vnet/_check_ip_address.py`)
and by the hand-written `profile` command module
(`src/azure-cli/azure/cli/command_modules/profile/custom.py`).

The generated command file is declarative configuration: URL template,
parameter lists, argument declarations and a response schema.  The engine
that interprets this configuration (`azure.cli.core.aaz`) is not part of the
source tree at hand, so its behaviour is modelled from the specification
document and every such definition carries a doc comment starting
`Modelled from the spec:`.  Definitions taken from the source files carry
the Python names of the source.
-/

/-- JSON-like values, the data both request bodies and response bodies
are made of. -/
inductive JVal where
  | null
  | bool (b : Bool)
  | str (s : String)
  | int (n : Int)
  | arr (xs : List JVal)
  | obj (kvs : List (String × JVal))
deriving Repr

/-- First value bound to a key in an association list (Python `dict` lookup
restricted to the keys the claims touch). -/
def jLookup : List (String × JVal) → String → Option JVal
  | [], _ => none
  | (k, v) :: rest, key => if k = key then some v else jLookup rest key

/-- Keys of an association list. -/
def jKeys (kvs : List (String × JVal)) : List String := kvs.map Prod.fst

/-! ## TypeSchema

The response schema tree built by
`VirtualNetworksCheckIPAddressAvailability._build_schema_on_200`:
an object node maps a logical field name to a wire name
(`serialized_name`) and a nested type. -/

mutual
/-- A TypeSchema node: the closed set of value-type descriptors
(`AAZBoolType`, `AAZStrType`, `AAZObjectType`, `AAZListType`) the generated
command composes. -/
inductive AAZType where
  | boolT
  | strT
  | objT (fields : AAZFields)
  | listT (elem : AAZType)

/-- Ordered field list of an object node: logical name, wire name
(`serialized_name`, defaulting to the logical name), field type. -/
inductive AAZFields where
  | nil
  | cons (logical wire : String) (ty : AAZType) (rest : AAZFields)
end

/-- Map a fallible element transformation over a list, failing whole when an
element fails. -/
def optMapList (f : JVal → Option JVal) : List JVal → Option (List JVal)
  | [] => some []
  | x :: xs =>
    match f x, optMapList f xs with
    | some y, some ys => some (y :: ys)
    | _, _ => none

mutual
/-- Modelled from the spec: response deserialization
(`azure.cli.core.aaz` response handling, §4.1 of the spec, missing from
src/).  Walks the response JSON against the declared TypeSchema; an Object
node maps each declared field from its wire name to its logical name,
ignoring wire fields not declared in the schema, and a declared field absent
from the wire is omitted (absent sentinel) rather than failing; a List node
deserializes each element against the element schema; a shape mismatch is a
`DeserializationError`, rendered here as `none`. -/
def deserialize : AAZType → JVal → Option JVal
  | .boolT, .bool b => some (.bool b)
  | .strT, .str s => some (.str s)
  | .listT e, .arr xs => (optMapList (deserialize e) xs).map JVal.arr
  | .objT fs, .obj kvs => (deserFields fs kvs).map JVal.obj
  | _, _ => none

/-- Modelled from the spec: deserialize the declared fields of an object
node, in declaration order, looking each one up by wire name. -/
def deserFields : AAZFields → List (String × JVal) → Option (List (String × JVal))
  | .nil, _ => some []
  | .cons l w ty rest, kvs =>
    match jLookup kvs w with
    | none => deserFields rest kvs
    | some v =>
      match deserialize ty v, deserFields rest kvs with
      | some v2, some out => some ((l, v2) :: out)
      | _, _ => none
end

/-- The 200-response schema declared by
`VirtualNetworksCheckIPAddressAvailability._build_schema_on_200`:
an object with `available : AAZBoolType` (wire name `available`) and
`available_ip_addresses : AAZListType` of `AAZStrType` with
`serialized_name="availableIPAddresses"`. -/
def schema_on_200 : AAZType :=
  .objT (.cons "available" "available" .boolT
    (.cons "available_ip_addresses" "availableIPAddresses" (.listT .strT) .nil))

example :
    deserialize schema_on_200
      (.obj [("available", .bool true), ("availableIPAddresses", .arr [])])
      = some (.obj [("available", .bool true), ("available_ip_addresses", .arr [])]) := rfl

/-! ## ArgumentSchema

Argument declarations of `CheckIpAddress._build_arguments_schema` and the
spec-modelled validation engine. -/

/-- One argument specification: logical name, accepted option strings,
required flag, help text, optional id-part marker — the data set by
`_build_arguments_schema` via `AAZResourceGroupNameArg` / `AAZStrArg`. -/
structure ArgDecl where
  name : String
  options : List String
  required : Bool
  help : String
  id_part : Option String
deriving Repr, DecidableEq

/-- The argument schema of `CheckIpAddress._build_arguments_schema`:
`resource_group` (required, the resource-group argument with its standard
options), `name` (required, options `-n`/`--name`, `id_part="name"`), and
`ip_address` (optional, option `--ip-address`). -/
def checkIpAddressArgs : List ArgDecl :=
  [ { name := "resource_group", options := ["-g", "--resource-group"],
      required := true,
      help := "Name of resource group.", id_part := none },
    { name := "name", options := ["-n", "--name"], required := true,
      help := "The virtual network (VNet) name.", id_part := some "name" },
    { name := "ip_address", options := ["--ip-address"], required := false,
      help := "The private IP address to be verified.", id_part := none } ]

/-- Validation errors of the argument-schema build step. -/
inductive ArgError where
  | missingRequiredArgument (name : String)
deriving Repr, DecidableEq

/-- Raw argument mapping supplied by the caller: logical name to string
value. -/
abbrev RawArgs := List (String × String)

/-- First value bound to a key in a raw argument mapping. -/
def rawLookup : RawArgs → String → Option String
  | [], _ => none
  | (k, v) :: rest, key => if k = key then some v else rawLookup rest key

/-- Modelled from the spec: the argument-schema `build` step
(`azure.cli.core.aaz` argument handling, §4.2 of the spec, missing from
src/).  Every declared required argument absent from the raw mapping
contributes a `MissingRequiredArgument` error; all errors are collected in
one pass before any is surfaced; when none occur the validated argument
values are the declared arguments with the supplied values (an unset
optional argument stays unset). -/
def buildArgs (decls : List ArgDecl) (raw : RawArgs) :
    Except (List ArgError) (List (String × Option String)) :=
  let errs := (decls.filter fun d => d.required && (rawLookup raw d.name).isNone).map
    fun d => ArgError.missingRequiredArgument d.name
  if errs.isEmpty then
    .ok (decls.map fun d => (d.name, rawLookup raw d.name))
  else
    .error errs

/-! ## URL template and request building -/

/-- A parsed URL-template part: literal text or a `{placeholder}`. -/
inductive TemplatePart where
  | lit (s : String)
  | ph (name : String)
deriving Repr, DecidableEq

/-- Emit a pending literal run, skipping an empty one. -/
def flushLit (cur : List Char) : List TemplatePart :=
  if cur.isEmpty then [] else [.lit (String.mk cur)]

/-- Single left-to-right pass over the template characters: `inPh` says
whether the scan is inside a `{...}` placeholder, `cur` is the pending run,
`acc` the parts already emitted. -/
def parseTemplateGo : List Char → Bool → List Char → List TemplatePart → List TemplatePart
  | [], inPh, cur, acc =>
    acc ++ (if inPh then [.ph (String.mk cur)] else flushLit cur)
  | c :: rest, false, cur, acc =>
    if c = '{' then parseTemplateGo rest true [] (acc ++ flushLit cur)
    else parseTemplateGo rest false (cur ++ [c]) acc
  | c :: rest, true, cur, acc =>
    if c = '}' then parseTemplateGo rest false [] (acc ++ [.ph (String.mk cur)])
    else parseTemplateGo rest true (cur ++ [c]) acc

/-- Modelled from the spec: split a URL template into literal runs and
`{placeholder}` names (the parsing half of `client.format_url`, missing
from src/). -/
def parseTemplate (cs : List Char) : List TemplatePart :=
  parseTemplateGo cs false [] []

/-- Modelled from the spec: substitute every placeholder of a parsed
template from the parameter mapping; a missing substitution is a fatal
`UrlBuildError` (`none`), never a literal placeholder left in place. -/
def renderParts (params : List (String × String)) : List TemplatePart → Option String
  | [] => some ""
  | .lit s :: rest => (renderParts params rest).map (s ++ ·)
  | .ph name :: rest =>
    match rawLookup params name with
    | none => none
    | some v => (renderParts params rest).map (v ++ ·)

/-- Modelled from the spec: `client.format_url` — parse the template and
substitute every `{placeholder}` from the parameter mapping, failing on an
unresolved placeholder. -/
def format_url (template : String) (params : List (String × String)) : Option String :=
  renderParts params (parseTemplate template.data)

/-- The URL template of `VirtualNetworksCheckIPAddressAvailability.url`. -/
def checkIpUrlTemplate : String :=
  "/subscriptions/{subscriptionId}/resourceGroups/{resourceGroupName}/providers/Microsoft.Network/virtualNetworks/{virtualNetworkName}/CheckIPAddressAvailability"

example :
    parseTemplate checkIpUrlTemplate.data =
      [.lit "/subscriptions/", .ph "subscriptionId",
       .lit "/resourceGroups/", .ph "resourceGroupName",
       .lit "/providers/Microsoft.Network/virtualNetworks/", .ph "virtualNetworkName",
       .lit "/CheckIPAddressAvailability"] := by decide

/-! ## Operation: request building, dispatch, response classification -/

/-- Validated argument values: logical name to value, `none` for an unset
optional argument. -/
abbrev ArgVals := List (String × Option String)

/-- Value of a validated argument (unset and undeclared both read back as
`none`, as `AAZUndefined` does on serialization). -/
def argLookup : ArgVals → String → Option String
  | [], _ => none
  | (k, v) :: rest, key => if k = key then v else argLookup rest key

/-- Per-invocation execution context: validated argument values, the
ambient subscription id, and the named variable store written by
operations (`ctx.vars`). -/
structure Ctx where
  args : ArgVals
  subscription_id : String
  vars : List (String × JVal)

/-- `ctx.set_var`: bind a named context variable, replacing an existing
binding. -/
def setVar : List (String × JVal) → String → JVal → List (String × JVal)
  | [], key, v => [(key, v)]
  | (k, w) :: rest, key, v =>
    if k = key then (key, v) :: rest else (k, w) :: setVar rest key v

/-- Modelled from the spec: `serialize_url_param` — a set value becomes the
one parameter binding; an unset required parameter is a fatal error
(`none`), an unset optional parameter is omitted entirely. -/
def serialize_url_param (name : String) (v : Option String) (required : Bool) :
    Option (List (String × String)) :=
  match v with
  | some s => some [(name, s)]
  | none => if required then none else some []

/-- Modelled from the spec: `serialize_query_param`, same contract as
`serialize_url_param`. -/
def serialize_query_param (name : String) (v : Option String) (required : Bool) :
    Option (List (String × String)) :=
  serialize_url_param name v required

/-- `VirtualNetworksCheckIPAddressAvailability.url_parameters`:
`resourceGroupName` from `ctx.args.resource_group` (required),
`subscriptionId` from `ctx.subscription_id` (required),
`virtualNetworkName` from `ctx.args.name` (required). -/
def url_parameters (ctx : Ctx) : Option (List (String × String)) := do
  let p1 ← serialize_url_param "resourceGroupName" (argLookup ctx.args "resource_group") true
  let p2 ← serialize_url_param "subscriptionId" (some ctx.subscription_id) true
  let p3 ← serialize_url_param "virtualNetworkName" (argLookup ctx.args "name") true
  pure (p1 ++ p2 ++ p3)

/-- `VirtualNetworksCheckIPAddressAvailability.query_parameters`:
`ipAddress` from `ctx.args.ip_address` (optional), the literal
`api-version=2017-10-01` (required). -/
def query_parameters (ctx : Ctx) : Option (List (String × String)) := do
  let p1 ← serialize_query_param "ipAddress" (argLookup ctx.args "ip_address") false
  let p2 ← serialize_query_param "api-version" (some "2017-10-01") true
  pure (p1 ++ p2)

/-- `VirtualNetworksCheckIPAddressAvailability.header_parameters`:
`Accept: application/json`. -/
def header_parameters : List (String × String) := [("Accept", "application/json")]

/-- An HTTP request as handed to the injected transport: method, substituted
URL path, query parameters, headers. -/
structure Request where
  method : String
  url : String
  query : List (String × String)
  headers : List (String × String)
deriving Repr, DecidableEq

/-- An HTTP response from the transport: status code and decoded JSON
body. -/
structure HttpResponse where
  status_code : Nat
  body : JVal

/-- The structured remote API error (`MgmtErrorFormat`): code and
message decoded from the error response body. -/
structure RemoteApiError where
  code : String
  message : String
deriving Repr, DecidableEq

/-- Failures of one operation: a decoded non-success response, a transport
failure before a response was obtained, an unresolvable URL or missing
required parameter, or a response body not matching the schema. -/
inductive CallError where
  | remoteApi (e : RemoteApiError)
  | transport (msg : String)
  | urlBuild
  | deserialization
deriving Repr, DecidableEq

/-- The injected transport boundary: `send(request) -> response`, which may
fail with a `TransportError` before producing a response. -/
abbrev Transport := Request → Except String HttpResponse

/-- String content of a JSON field, empty when absent or not a string. -/
def jStr (v : Option JVal) : String :=
  match v with
  | some (.str s) => s
  | _ => ""

/-- Modelled from the spec: `MgmtErrorFormat` error decoding
(`VirtualNetworksCheckIPAddressAvailability.error_format`, engine missing
from src/): body `{"error": {"code": c, "message": m}}` yields a
`RemoteApiError` with code `c` and message `m`. -/
def decodeMgmtError (body : JVal) : RemoteApiError :=
  match body with
  | .obj kvs =>
    match jLookup kvs "error" with
    | some (.obj e) => { code := jStr (jLookup e "code"), message := jStr (jLookup e "message") }
    | _ => { code := "", message := "" }
  | _ => { code := "", message := "" }

/-- `VirtualNetworksCheckIPAddressAvailability.make_request`: GET request
with the substituted URL template, the query parameters and the headers;
a missing substitution or missing required parameter is fatal. -/
def make_request (ctx : Ctx) : Option Request := do
  let ps ← url_parameters ctx
  let u ← format_url checkIpUrlTemplate ps
  let q ← query_parameters ctx
  pure { method := "GET", url := u, query := q, headers := header_parameters }

/-- `VirtualNetworksCheckIPAddressAvailability.on_200`: deserialize the
response content and store it into the context variable `"instance"`
through the schema built by `_build_schema_on_200`. -/
def on_200 (ctx : Ctx) (resp : HttpResponse) : Except CallError Ctx :=
  match deserialize schema_on_200 resp.body with
  | none => .error .deserialization
  | some data => .ok { ctx with vars := setVar ctx.vars "instance" data }

/-- Observable steps of one invocation, used to state ordering claims. -/
inductive Event where
  | preOperations
  | httpCall (req : Request)
  | postOperations
  | output
deriving Repr, DecidableEq

/-- `VirtualNetworksCheckIPAddressAvailability.__call__`: build the request,
send it through the injected transport, and classify the response: a status
code in `[200]` takes the `on_200` path, every other status takes the
`on_error` path raising the decoded `RemoteApiError`.  Also records the
request actually dispatched. -/
def VirtualNetworksCheckIPAddressAvailability (ctx : Ctx) (transport : Transport) :
    List Event × Except CallError Ctx :=
  match make_request ctx with
  | none => ([], .error .urlBuild)
  | some req =>
    ([.httpCall req],
      match transport req with
      | .error m => .error (.transport m)
      | .ok resp =>
        if resp.status_code ∈ [200] then on_200 ctx resp
        else .error (.remoteApi (decodeMgmtError resp.body)))

/-! ## Command orchestration (`CheckIpAddress`) -/

/-- Failures of one command invocation. -/
inductive CmdError where
  | validation (errs : List ArgError)
  | call (e : CallError)
  | outputMissing
deriving Repr, DecidableEq

/-- `CheckIpAddress._execute_operations`: run the `pre_operations` callback
(a pass), then the single `VirtualNetworksCheckIPAddressAvailability`
operation, then the `post_operations` callback (a pass); an operation
failure propagates at once, so `post_operations` does not run after it. -/
def _execute_operations (ctx : Ctx) (transport : Transport) :
    List Event × Except CallError Ctx :=
  let (evs, r) := VirtualNetworksCheckIPAddressAvailability ctx transport
  match r with
  | .error e => (Event.preOperations :: evs, .error e)
  | .ok ctx1 => (Event.preOperations :: (evs ++ [Event.postOperations]), .ok ctx1)

/-- Modelled from the spec: `client_flatten` — lift the single-level nested
object fields of the outermost object up to the result root (collisions are
an implementation-defined tie-break the claims never exercise). -/
def flattenFields : List (String × JVal) → List (String × JVal)
  | [] => []
  | (k, v) :: rest =>
    match v with
    | .obj sub => sub ++ flattenFields rest
    | _ => (k, v) :: flattenFields rest

/-- Modelled from the spec: `deserialize_output` — render the stored typed
context variable as plain data, flattening the outermost object level when
`client_flatten` is requested. -/
def deserialize_output (v : JVal) (client_flatten : Bool) : JVal :=
  if client_flatten then
    match v with
    | .obj kvs => .obj (flattenFields kvs)
    | _ => v
  else v

/-- `CheckIpAddress._output`: read the context variable `"instance"` and
render it with `client_flatten=True`. -/
def _output (ctx : Ctx) : Option JVal :=
  (jLookup ctx.vars "instance").map (deserialize_output · true)

/-- `CheckIpAddress._handler`: build and validate the argument schema
(failure surfaces the collected errors and runs no operation), execute the
operations, then run the output step; an operation failure skips the output
step. -/
def _handler (raw : RawArgs) (subscription_id : String) (transport : Transport) :
    List Event × Except CmdError JVal :=
  match buildArgs checkIpAddressArgs raw with
  | .error errs => ([], .error (.validation errs))
  | .ok vals =>
    let ctx : Ctx := { args := vals, subscription_id := subscription_id, vars := [] }
    let (evs, r) := _execute_operations ctx transport
    match r with
    | .error e => (evs, .error (.call e))
    | .ok ctx1 =>
      match _output ctx1 with
      | none => (evs, .error .outputMissing)
      | some out => (evs ++ [Event.output], .ok out)

/-! ## Class-level memoization

`CheckIpAddress._args_schema` and
`VirtualNetworksCheckIPAddressAvailability._schema_on_200` are class-level
fields initialized to `None`; the builders return the cached object
unchanged whenever it is already set.  The class-level field is made
explicit as a state value threaded through the builder. -/

/-- `CheckIpAddress._build_arguments_schema`: if `cls._args_schema is not
None` return it unchanged; otherwise construct the argument schema, store
it in `cls._args_schema` and return it. -/
def _build_arguments_schema (cache : Option (List ArgDecl)) :
    List ArgDecl × Option (List ArgDecl) :=
  match cache with
  | some s => (s, some s)
  | none => (checkIpAddressArgs, some checkIpAddressArgs)

/-- `VirtualNetworksCheckIPAddressAvailability._build_schema_on_200`: if
`cls._schema_on_200 is not None` return it unchanged; otherwise construct
the response schema, store it in `cls._schema_on_200` and return it. -/
def _build_schema_on_200 (cache : Option AAZType) : AAZType × Option AAZType :=
  match cache with
  | some s => (s, some s)
  | none => (schema_on_200, some schema_on_200)

/-! ## `profile/custom.py` -/

/-- Python truthiness of an optional string argument: `None` and the empty
string are falsy, every other string is truthy. -/
def pyTruthy : Option String → Bool
  | none => false
  | some s => !s.isEmpty

/-- A small universe of Python values, enough to express the guard of
`set_active_subscription`, whose condition `not id` tests the *builtin
function* `id`, not the subscription argument. -/
inductive PyVal where
  | noneV
  | strV (s : String)
  | builtinFunction (name : String)
deriving Repr, DecidableEq

/-- Python truthiness over `PyVal`: `None` is falsy, a string is truthy
when non-empty, a builtin function object is always truthy. -/
def pyValTruthy : PyVal → Bool
  | .noneV => false
  | .strV s => !s.isEmpty
  | .builtinFunction _ => true

/-- Observable interactions with the `Profile` collaborator. -/
inductive ProfileCall where
  | setActiveSubscription (subscription : PyVal)
deriving Repr, DecidableEq

/-- A `CLIError` with its message. -/
structure CLIError where
  message : String
deriving Repr, DecidableEq

/-- `set_active_subscription` (profile/custom.py lines 97-102): construct
the profile, then `if not id: raise CLIError(...)` — the guard reads the
Python builtin `id`, not the `subscription` parameter — then call
`profile.set_active_subscription(subscription)`. -/
def set_active_subscription (subscription : PyVal) :
    Except CLIError (List ProfileCall) :=
  if !pyValTruthy (PyVal.builtinFunction "id") then
    .error { message := "Please provide subscription id or unique name." }
  else
    .ok [.setActiveSubscription subscription]

/-- The arguments of `login` (profile/custom.py lines 116-117), with the
Python defaults: optional strings default to `None`, `identity` and
`use_device_code` default to `False`, `use_cert_sn_issuer` defaults to
`None`. -/
structure LoginArgs where
  username : Option String := none
  password : Option String := none
  service_principal : Option String := none
  tenant : Option String := none
  allow_no_subscriptions : Bool := false
  identity : Bool := false
  use_device_code : Bool := false
  use_cert_sn_issuer : Option Bool := none
  scopes : Option String := none
  client_assertion : Option String := none

/-- Python truthiness of an optional boolean: `None` is falsy, otherwise
the boolean itself. -/
def optBoolTruthy : Option Bool → Bool
  | none => false
  | some b => b

/-- The "quick argument usage check" at the top of `login`
(profile/custom.py lines 120-128), evaluated in source order:
`any([password, service_principal, tenant]) and identity`, then
`any([password, service_principal, username, identity]) and
use_device_code`, then `use_cert_sn_issuer and not service_principal`,
then `service_principal and not username`. -/
def login_usage_check (a : LoginArgs) : Option CLIError :=
  if (pyTruthy a.password || pyTruthy a.service_principal || pyTruthy a.tenant)
      && a.identity then
    some { message := "usage error: '--identity' is not applicable with other arguments" }
  else if (pyTruthy a.password || pyTruthy a.service_principal || pyTruthy a.username
      || a.identity) && a.use_device_code then
    some { message := "usage error: '--use-device-code' is not applicable with other arguments" }
  else if optBoolTruthy a.use_cert_sn_issuer && !pyTruthy a.service_principal then
    some { message := "usage error: '--use-sn-issuer' is only applicable with a service principal" }
  else if pyTruthy a.service_principal && !pyTruthy a.username then
    some { message := "usage error: --service-principal --username NAME --password SECRET --tenant TENANT" }
  else
    none

/-- External interactions `login` can make after its usage checks; the
first is constructing the `Profile` (profile/custom.py line 132), which is
the first profile interaction of the function. -/
inductive LoginEffect where
  | constructProfile
deriving Repr, DecidableEq

/-- `login` (profile/custom.py lines 116-132), up to the profile boundary:
the usage checks run first and raise a `CLIError` before the `Profile` is
constructed; only when all pass does the function reach the profile
interaction (whose behaviour is an external collaborator, out of scope). -/
def login (a : LoginArgs) : List LoginEffect × Option CLIError :=
  match login_usage_check a with
  | some e => ([], some e)
  | none => ([.constructProfile], none)

/-! ### `list_subscriptions` -/

/-- A subscription dictionary: keys to JSON-like values (`JVal.null` is
the Python `None`). -/
abbrev SubDict := List (String × JVal)

/-- Remove every binding of a key (Python `dict.pop` removal step). -/
def removeKey (d : SubDict) (key : String) : SubDict :=
  d.filter fun kv => kv.1 ≠ key

/-- The loop body of `list_subscriptions`:
`sub['cloudName'] = sub.pop('environmentName', None)` — the value bound to
`environmentName` (or `None` when absent) is removed from the dictionary
and rebound under `cloudName`. -/
def sub_transform (d : SubDict) : SubDict :=
  setVar (removeKey d "environmentName") "cloudName" ((jLookup d "environmentName").getD .null)

/-- The filter predicate of `list_subscriptions`:
`s.get('state') == 'Enabled'`. -/
def stateEnabled (d : SubDict) : Bool :=
  match jLookup d "state" with
  | some (.str t) => t = "Enabled"
  | _ => false

/-- `list_subscriptions` (profile/custom.py lines 48-63), given the
subscriptions loaded from the external account store: rename
`environmentName` to `cloudName` on every entry; when `all` is false and
some entry is not in state `Enabled`, keep only the `Enabled` entries. -/
def list_subscriptions (subscriptions : List SubDict) (all : Bool) : List SubDict :=
  let subs := subscriptions.map sub_transform
  if !all then
    let enabled_ones := subs.filter stateEnabled
    if enabled_ones.length ≠ subs.length then enabled_ones else subs
  else subs

/-! ## Helper lemmas -/

theorem jLookup_setVar_self (l : List (String × JVal)) (k : String) (v : JVal) :
    jLookup (setVar l k v) k = some v := by
  induction l with
  | nil => simp [setVar, jLookup]
  | cons hd tl ih =>
    obtain ⟨k1, w⟩ := hd
    by_cases h : k1 = k
    · simp [setVar, h, jLookup]
    · simp [setVar, h, jLookup, ih]

theorem jLookup_setVar_ne (l : List (String × JVal)) (k k' : String) (v : JVal)
    (h : k ≠ k') : jLookup (setVar l k v) k' = jLookup l k' := by
  induction l with
  | nil => simp [setVar, jLookup, h]
  | cons hd tl ih =>
    obtain ⟨k1, w⟩ := hd
    by_cases h1 : k1 = k
    · subst h1
      simp [setVar, jLookup, h]
    · simp [setVar, h1, jLookup, ih]

theorem jLookup_removeKey_self (d : SubDict) (k : String) :
    jLookup (removeKey d k) k = none := by
  induction d with
  | nil => simp [removeKey, jLookup]
  | cons hd tl ih =>
    obtain ⟨k1, w⟩ := hd
    by_cases h : k1 = k
    · simpa [removeKey, h] using ih
    · simpa [removeKey, h, jLookup] using ih

theorem length_filter_eq_all {α} (p : α → Bool) (l : List α)
    (h : (l.filter p).length = l.length) : ∀ x ∈ l, p x = true := by
  induction l with
  | nil => simp
  | cons a tl ih =>
    cases pa : p a with
    | true =>
      intro x hx
      rcases List.mem_cons.mp hx with hx | hx
      · exact hx ▸ pa
      · refine ih ?_ x hx
        simpa [List.filter_cons, pa] using h
    | false =>
      exfalso
      have hle := List.length_filter_le p tl
      simp [List.filter_cons, pa] at h
      omega

theorem optMapList_str (xs : List String) :
    optMapList (deserialize .strT) (xs.map JVal.str) = some (xs.map JVal.str) := by
  induction xs with
  | nil => simp [optMapList]
  | cons x tl ih => simp [optMapList, deserialize, ih]

/-! ## Claims -/

/-- C1: the argument set `{resource_group: "rg1", name: "vnet1",
ip_address: "10.0.0.4"}` validates, and for every ambient subscription id
the operation builds a GET request whose path is the URL template with
`virtualNetworkName`, `resourceGroupName` and `subscriptionId` substituted
and whose query carries `ipAddress=10.0.0.4` and `api-version=2017-10-01`;
a 200 body `{"available": true, "availableIPAddresses": []}` deserializes
through the declared response schema to
`{available: true, available_ip_addresses: []}`, mapping the wire name
`availableIPAddresses` to the logical name `available_ip_addresses`. -/
theorem checkIpAddress_end_to_end (sub : String) :
    buildArgs checkIpAddressArgs
      [("resource_group", "rg1"), ("name", "vnet1"), ("ip_address", "10.0.0.4")] =
      .ok [("resource_group", some "rg1"), ("name", some "vnet1"),
           ("ip_address", some "10.0.0.4")] ∧
    make_request
      { args := [("resource_group", some "rg1"), ("name", some "vnet1"),
                 ("ip_address", some "10.0.0.4")],
        subscription_id := sub, vars := [] } =
      some { method := "GET",
             url := "/subscriptions/" ++ sub ++ "/resourceGroups/rg1/providers/Microsoft.Network/virtualNetworks/vnet1/CheckIPAddressAvailability",
             query := [("ipAddress", "10.0.0.4"), ("api-version", "2017-10-01")],
             headers := [("Accept", "application/json")] } ∧
    deserialize schema_on_200
      (.obj [("available", .bool true), ("availableIPAddresses", .arr [])]) =
      some (.obj [("available", .bool true), ("available_ip_addresses", .arr [])]) := by
  refine ⟨rfl, ?_, rfl⟩
  have h : make_request
      { args := [("resource_group", some "rg1"), ("name", some "vnet1"),
                 ("ip_address", some "10.0.0.4")],
        subscription_id := sub, vars := [] } =
      some { method := "GET",
             url := "/subscriptions/" ++ (sub ++ "/resourceGroups/rg1/providers/Microsoft.Network/virtualNetworks/vnet1/CheckIPAddressAvailability"),
             query := [("ipAddress", "10.0.0.4"), ("api-version", "2017-10-01")],
             headers := [("Accept", "application/json")] } := rfl
  rw [h, String.append_assoc]

/-- C2: for every response obtained through the transport, the operation
classifies by status code: a status in the declared success set `{200}`
takes the `on_200` deserialization path, any other status takes the error
path raising the `RemoteApiError` decoded from the body — exactly one of
the two, expressed by the `if`; and the decoder maps
`{"error": {"code": "NotFound", "message": "x"}}` to
`RemoteApiError(code="NotFound", message="x")`. -/
theorem checkIpAddress_status_classification (ctx : Ctx) (transport : Transport)
    (req : Request) (resp : HttpResponse)
    (hreq : make_request ctx = some req) (hresp : transport req = .ok resp) :
    (VirtualNetworksCheckIPAddressAvailability ctx transport).2 =
      (if resp.status_code = 200 then on_200 ctx resp
       else .error (.remoteApi (decodeMgmtError resp.body))) ∧
    decodeMgmtError
      (.obj [("error", .obj [("code", .str "NotFound"), ("message", .str "x")])]) =
      { code := "NotFound", message := "x" } := by
  refine ⟨?_, rfl⟩
  simp [VirtualNetworksCheckIPAddressAvailability, hreq, hresp]

/-- A concrete context used by witnesses: validated arguments `rg1` /
`vnet1` with `ip_address` unset, subscription `sub0`, empty variable
store. -/
def witnessCtx : Ctx :=
  { args := [("resource_group", some "rg1"), ("name", some "vnet1"), ("ip_address", none)],
    subscription_id := "sub0", vars := [] }

/-- A concrete 404 response with a `NotFound` error body. -/
def witness404 : HttpResponse :=
  { status_code := 404,
    body := .obj [("error", .obj [("code", .str "NotFound"), ("message", .str "x")])] }

/-- The request `witnessCtx` builds. -/
def witnessReq : Request :=
  { method := "GET",
    url := "/subscriptions/sub0/resourceGroups/rg1/providers/Microsoft.Network/virtualNetworks/vnet1/CheckIPAddressAvailability",
    query := [("api-version", "2017-10-01")],
    headers := [("Accept", "application/json")] }

/-- Witness for C2: a concrete context, a transport answering 404 with a
`NotFound` error body, and the classification taking the error path. -/
theorem checkIpAddress_status_classification_witness :
    (VirtualNetworksCheckIPAddressAvailability witnessCtx (fun _ => .ok witness404)).2 =
      .error (.remoteApi { code := "NotFound", message := "x" }) := by
  have h := checkIpAddress_status_classification witnessCtx (fun _ => .ok witness404)
    witnessReq witness404 rfl rfl
  rw [h.1]
  rfl

/-- C6: the class-level memoization of `CheckIpAddress._args_schema` and
`VirtualNetworksCheckIPAddressAvailability._schema_on_200`: from any cache
state, calling the builder again after one call returns exactly the object
the first call returned and leaves the cache holding that same object; in
particular, once the cache is populated the builder returns the memoized
object unchanged. -/
theorem build_schema_memoized (c : Option (List ArgDecl)) (t : Option AAZType)
    (s : List ArgDecl) (u : AAZType) :
    _build_arguments_schema (_build_arguments_schema c).2 =
      ((_build_arguments_schema c).1, (_build_arguments_schema c).2) ∧
    _build_schema_on_200 (_build_schema_on_200 t).2 =
      ((_build_schema_on_200 t).1, (_build_schema_on_200 t).2) ∧
    _build_arguments_schema (some s) = (s, some s) ∧
    _build_schema_on_200 (some u) = (u, some u) := by
  refine ⟨?_, ?_, rfl, rfl⟩
  · cases c <;> rfl
  · cases t <;> rfl

/-- C8: `set_active_subscription` never takes its `CLIError` branch: the
guard `if not id` tests the always-truthy Python builtin `id` rather than
the `subscription` argument, so for every argument value — including
`None` and the empty string — the profile is asked to set that exact
subscription. -/
theorem set_active_subscription_guard_unreachable (s : PyVal) :
    set_active_subscription s = .ok [.setActiveSubscription s] ∧
    set_active_subscription .noneV = .ok [.setActiveSubscription .noneV] ∧
    set_active_subscription (.strV "") = .ok [.setActiveSubscription (.strV "")] := by
  exact ⟨rfl, rfl, rfl⟩

/-- Shape of `_execute_operations`: the event trace is always
`pre_operations` first, and ends after the HTTP call on failure or with
`post_operations` on success. -/
theorem execute_operations_shape (ctx : Ctx) (transport : Transport) :
    (∃ req ctx1, _execute_operations ctx transport =
      ([.preOperations, .httpCall req, .postOperations], .ok ctx1)) ∨
    (∃ e, _execute_operations ctx transport = ([.preOperations], .error e)) ∨
    (∃ req e, _execute_operations ctx transport =
      ([.preOperations, .httpCall req], .error e)) := by
  unfold _execute_operations VirtualNetworksCheckIPAddressAvailability
  cases hreq : make_request ctx with
  | none =>
    right; left
    exact ⟨CallError.urlBuild, by simp⟩
  | some req =>
    cases htr : transport req with
    | error m =>
      right; right
      exact ⟨req, CallError.transport m, by simp [htr]⟩
    | ok resp =>
      by_cases hst : resp.status_code = 200
      · cases h200 : on_200 ctx resp with
        | error e =>
          right; right
          exact ⟨req, e, by simp [htr, hst, h200]⟩
        | ok ctx1 =>
          left
          exact ⟨req, ctx1, by simp [htr, hst, h200]⟩
      · right; right
        exact ⟨req, CallError.remoteApi (decodeMgmtError resp.body), by simp [htr, hst]⟩

/-- C3: for every raw argument mapping missing at least one of the two
required arguments (`resource_group`, `name`; `ip_address` is optional),
the build step fails with `MissingRequiredArgument` errors naming exactly
the missing required arguments, collected in one pass — omitting both
yields the two errors — and the command runs no operation (empty event
trace) and fails with those validation errors. -/
theorem missing_required_arguments_collected (raw : RawArgs) (sub : String)
    (transport : Transport)
    (h : rawLookup raw "resource_group" = none ∨ rawLookup raw "name" = none) :
    ∃ errs, errs ≠ [] ∧
      errs =
        (if (rawLookup raw "resource_group").isNone then
          [ArgError.missingRequiredArgument "resource_group"] else []) ++
        (if (rawLookup raw "name").isNone then
          [ArgError.missingRequiredArgument "name"] else []) ∧
      buildArgs checkIpAddressArgs raw = .error errs ∧
      _handler raw sub transport = ([], .error (.validation errs)) := by
  rcases hr : rawLookup raw "resource_group" with _ | vr <;>
    rcases hn : rawLookup raw "name" with _ | vn
  · exact ⟨[ArgError.missingRequiredArgument "resource_group",
            ArgError.missingRequiredArgument "name"],
      by simp, by simp [hr, hn], by simp [buildArgs, checkIpAddressArgs, hr, hn],
      by simp [_handler, buildArgs, checkIpAddressArgs, hr, hn]⟩
  · exact ⟨[ArgError.missingRequiredArgument "resource_group"],
      by simp, by simp [hr, hn], by simp [buildArgs, checkIpAddressArgs, hr, hn],
      by simp [_handler, buildArgs, checkIpAddressArgs, hr, hn]⟩
  · exact ⟨[ArgError.missingRequiredArgument "name"],
      by simp, by simp [hr, hn], by simp [buildArgs, checkIpAddressArgs, hr, hn],
      by simp [_handler, buildArgs, checkIpAddressArgs, hr, hn]⟩
  · simp [hr, hn] at h

/-- Witness for C3: the empty raw mapping omits both required arguments and
yields the two `MissingRequiredArgument` errors with no operation run. -/
theorem missing_required_arguments_collected_witness :
    ∃ errs, errs ≠ [] ∧
      errs = [ArgError.missingRequiredArgument "resource_group",
              ArgError.missingRequiredArgument "name"] ∧
      buildArgs checkIpAddressArgs [] = .error errs ∧
      _handler [] "sub0" (fun _ => .ok witness404) =
        ([], .error (.validation errs)) := by
  have h := missing_required_arguments_collected [] "sub0" (fun _ => .ok witness404)
    (Or.inl rfl)
  rcases h with ⟨errs, hne, heq, hb, hh⟩
  exact ⟨errs, hne, by rw [heq]; rfl, hb, hh⟩

/-- C4: every invocation that reaches execution runs `pre_operations`,
then the single `VirtualNetworksCheckIPAddressAvailability` operation,
then `post_operations`, in exactly that order (the sequential event
trace); if the operation fails, `post_operations` is absent from the trace
and the output step does not run — the invocation fails. -/
theorem execute_operations_order (ctx : Ctx) (transport : Transport)
    (raw : RawArgs) (sub : String) :
    (∀ ctx1, (_execute_operations ctx transport).2 = .ok ctx1 →
      ∃ req, (_execute_operations ctx transport).1 =
        [.preOperations, .httpCall req, .postOperations]) ∧
    (∀ e, (_execute_operations ctx transport).2 = .error e →
      Event.postOperations ∉ (_execute_operations ctx transport).1 ∧
      ((_execute_operations ctx transport).1 = [.preOperations] ∨
        ∃ req, (_execute_operations ctx transport).1 =
          [.preOperations, .httpCall req])) ∧
    (∀ evs e, _handler raw sub transport = (evs, .error (.call e)) →
      Event.output ∉ evs ∧ Event.postOperations ∉ evs) := by
  refine ⟨?_, ?_, ?_⟩
  · intro ctx1 hok
    rcases execute_operations_shape ctx transport with ⟨req, c, hsh⟩ | ⟨e, hsh⟩ | ⟨req, e, hsh⟩
    · exact ⟨req, by rw [hsh]⟩
    · rw [hsh] at hok; cases hok
    · rw [hsh] at hok; cases hok
  · intro e herr
    rcases execute_operations_shape ctx transport with ⟨req, c, hsh⟩ | ⟨e2, hsh⟩ | ⟨req, e2, hsh⟩
    · rw [hsh] at herr; cases herr
    · rw [hsh]
      exact ⟨by simp, Or.inl rfl⟩
    · rw [hsh]
      exact ⟨by simp, Or.inr ⟨req, rfl⟩⟩
  · intro evs e hh
    unfold _handler at hh
    cases hb : buildArgs checkIpAddressArgs raw with
    | error errs => rw [hb] at hh; cases hh
    | ok vals =>
      rw [hb] at hh
      set ctx0 : Ctx := { args := vals, subscription_id := sub, vars := [] } with hctx0
      rcases execute_operations_shape ctx0 transport with ⟨req, c, hsh⟩ | ⟨e2, hsh⟩ | ⟨req, e2, hsh⟩ <;>
        simp only [hsh] at hh
      · cases ho : _output c with
        | none => simp [ho] at hh
        | some out => simp [ho] at hh
      · simp only [Prod.mk.injEq] at hh
        rw [← hh.1]
        simp
      · simp only [Prod.mk.injEq] at hh
        rw [← hh.1]
        simp

/-- Witness for C4: with a transport answering 404, the operation fails,
the trace is `pre_operations` then the HTTP call with no `post_operations`,
and the handler on valid raw arguments emits no output event. -/
theorem execute_operations_order_witness :
    (∃ req, (_execute_operations witnessCtx (fun _ => .ok witness404)).1 =
      [.preOperations, .httpCall req]) ∧
    Event.output ∉
      (_handler [("resource_group", "rg1"), ("name", "vnet1")] "sub0"
        (fun _ => .ok witness404)).1 := by
  have h := execute_operations_order witnessCtx (fun _ => .ok witness404)
    [("resource_group", "rg1"), ("name", "vnet1")] "sub0"
  refine ⟨?_, ?_⟩
  · exact (h.2.1 (.remoteApi { code := "NotFound", message := "x" }) rfl).2.resolve_left
      (by decide)
  · exact (h.2.2 _ (.remoteApi { code := "NotFound", message := "x" }) rfl).1

/-- C5: on a success (200) response whose body deserializes through the
declared schema, the operation stores the deserialized body into the
context variable named `"instance"`, and the output step reads exactly
that variable, renders it with one level of client flattening
(`client_flatten=True`), and returns the result. -/
theorem on200_stores_instance_output_reads_it (ctx : Ctx) (transport : Transport)
    (req : Request) (resp : HttpResponse) (data : JVal)
    (hreq : make_request ctx = some req) (hresp : transport req = .ok resp)
    (hstatus : resp.status_code = 200)
    (hdata : deserialize schema_on_200 resp.body = some data) :
    (VirtualNetworksCheckIPAddressAvailability ctx transport).2 =
      .ok { ctx with vars := setVar ctx.vars "instance" data } ∧
    jLookup (setVar ctx.vars "instance" data) "instance" = some data ∧
    _output { ctx with vars := setVar ctx.vars "instance" data } =
      some (deserialize_output data true) := by
  refine ⟨?_, jLookup_setVar_self _ _ _, ?_⟩
  · simp [VirtualNetworksCheckIPAddressAvailability, hreq, hresp, hstatus, on_200, hdata]
  · simp [_output, jLookup_setVar_self]

/-- A concrete 200 response for witnesses. -/
def witness200 : HttpResponse :=
  { status_code := 200,
    body := .obj [("available", .bool true), ("availableIPAddresses", .arr [])] }

/-- Witness for C5: a 200 response with a concrete body is stored under
`"instance"` and read back flattened by the output step. -/
theorem on200_stores_instance_output_reads_it_witness :
    (VirtualNetworksCheckIPAddressAvailability witnessCtx (fun _ => .ok witness200)).2 =
      .ok { witnessCtx with
            vars := setVar witnessCtx.vars "instance"
              (.obj [("available", .bool true), ("available_ip_addresses", .arr [])]) } ∧
    _output { witnessCtx with
              vars := setVar witnessCtx.vars "instance"
                (.obj [("available", .bool true), ("available_ip_addresses", .arr [])]) } =
      some (.obj [("available", .bool true), ("available_ip_addresses", .arr [])]) := by
  have h := on200_stores_instance_output_reads_it witnessCtx (fun _ => .ok witness200)
    witnessReq witness200
    (.obj [("available", .bool true), ("available_ip_addresses", .arr [])])
    rfl rfl rfl rfl
  exact ⟨h.1, by rw [h.2.2]; rfl⟩

/-- C7: every 200 response body that binds the declared wire fields to
well-typed values deserializes successfully to exactly the declared
logical fields — any extra field not declared in the schema (which
declares only `available` and `availableIPAddresses`) is omitted from the
result without error. -/
theorem unknown_response_fields_ignored (kvs : List (String × JVal)) (b : Bool)
    (xs : List String)
    (h1 : jLookup kvs "available" = some (.bool b))
    (h2 : jLookup kvs "availableIPAddresses" = some (.arr (xs.map JVal.str))) :
    deserialize schema_on_200 (.obj kvs) =
      some (.obj [("available", .bool b),
                  ("available_ip_addresses", .arr (xs.map JVal.str))]) := by
  simp [schema_on_200, deserialize, deserFields, h1, h2, optMapList_str]

/-- Witness for C7: a body with an extra undeclared field `"extra"`
deserializes successfully and the result omits it. -/
theorem unknown_response_fields_ignored_witness :
    deserialize schema_on_200
      (.obj [("available", .bool true), ("extra", .int 7),
             ("availableIPAddresses", .arr [.str "10.0.0.5"])]) =
      some (.obj [("available", .bool true),
                  ("available_ip_addresses", .arr [.str "10.0.0.5"])]) := by
  have h := unknown_response_fields_ignored
    [("available", .bool true), ("extra", .int 7),
     ("availableIPAddresses", .arr [.str "10.0.0.5"])]
    true ["10.0.0.5"] rfl rfl
  simpa using h

/-- The four usage-error messages raised by `login`'s quick argument usage
check. -/
def loginUsageErrorMessages : List String :=
  [ "usage error: '--identity' is not applicable with other arguments",
    "usage error: '--use-device-code' is not applicable with other arguments",
    "usage error: '--use-sn-issuer' is only applicable with a service principal",
    "usage error: --service-principal --username NAME --password SECRET --tenant TENANT" ]

/-- C9: whenever the argument combination is inconsistent — `identity`
with any of password/service_principal/tenant set, `use_device_code` with
any of password/service_principal/username/identity set,
`use_cert_sn_issuer` without a service principal, or a service principal
without a username — `login` raises one of its usage-error `CLIError`s
before any profile interaction (the effect trace is empty, the `Profile`
is never constructed). -/
theorem login_usage_error_before_profile (a : LoginArgs)
    (h :
      (a.identity = true ∧ (pyTruthy a.password = true ∨
        pyTruthy a.service_principal = true ∨ pyTruthy a.tenant = true)) ∨
      (a.use_device_code = true ∧ (pyTruthy a.password = true ∨
        pyTruthy a.service_principal = true ∨ pyTruthy a.username = true ∨
        a.identity = true)) ∨
      (optBoolTruthy a.use_cert_sn_issuer = true ∧
        pyTruthy a.service_principal = false) ∨
      (pyTruthy a.service_principal = true ∧ pyTruthy a.username = false)) :
    (login a).1 = [] ∧
    ∃ e, (login a).2 = some e ∧ e.message ∈ loginUsageErrorMessages := by
  unfold login login_usage_check
  split_ifs with h1 h2 h3 h4
  · exact ⟨rfl, _, rfl, by simp [loginUsageErrorMessages]⟩
  · exact ⟨rfl, _, rfl, by simp [loginUsageErrorMessages]⟩
  · exact ⟨rfl, _, rfl, by simp [loginUsageErrorMessages]⟩
  · exact ⟨rfl, _, rfl, by simp [loginUsageErrorMessages]⟩
  · exfalso
    rcases h with ⟨hi, hp⟩ | ⟨hd, hp⟩ | ⟨hc, hs⟩ | ⟨hs, hu⟩ <;> simp_all

/-- Witness for C9: `--use-device-code` together with a username raises a
usage error with no profile interaction. -/
theorem login_usage_error_before_profile_witness :
    (login { username := some "user@contoso.com", use_device_code := true }).1 = [] ∧
    ∃ e, (login { username := some "user@contoso.com", use_device_code := true }).2 =
      some e ∧ e.message ∈ loginUsageErrorMessages := by
  exact login_usage_error_before_profile
    { username := some "user@contoso.com", use_device_code := true }
    (Or.inr (Or.inl ⟨rfl, Or.inr (Or.inr (Or.inl rfl))⟩))

/-- C10: every subscription dictionary returned by `list_subscriptions` is
the renaming of an input entry: it has a `cloudName` key holding the value
removed from `environmentName` (or null when that key was absent) and no
`environmentName` key; and with `all = false` every returned entry is in
state `Enabled` — entries in any other state are filtered out. -/
theorem list_subscriptions_renames_and_filters (subs : List SubDict) (all : Bool)
    (e : SubDict) (he : e ∈ list_subscriptions subs all) :
    (∃ d ∈ subs, e = sub_transform d ∧
      jLookup e "cloudName" = some ((jLookup d "environmentName").getD .null)) ∧
    jLookup e "environmentName" = none ∧
    (all = false → stateEnabled e = true) := by
  have hmap : e ∈ subs.map sub_transform ∧ (all = false → stateEnabled e = true) := by
    cases all with
    | true =>
      refine ⟨?_, by intro hc; cases hc⟩
      simpa [list_subscriptions] using he
    | false =>
      simp only [list_subscriptions, Bool.not_false, if_true] at he
      split_ifs at he with hlen
      · rcases List.mem_filter.mp he with ⟨hm, hp⟩
        exact ⟨hm, fun _ => hp⟩
      · push_neg at hlen
        exact ⟨he, fun _ => length_filter_eq_all stateEnabled (subs.map sub_transform) hlen e he⟩
  rcases List.mem_map.mp hmap.1 with ⟨d, hd, hde⟩
  subst hde
  refine ⟨⟨d, hd, rfl, jLookup_setVar_self _ _ _⟩, ?_, hmap.2⟩
  rw [sub_transform, jLookup_setVar_ne _ _ _ _ (by decide)]
  exact jLookup_removeKey_self d "environmentName"

/-- Witness for C10: a two-entry store with one `Disabled` entry; with
`all = false` the result is the single `Enabled` entry, renamed. -/
theorem list_subscriptions_renames_and_filters_witness :
    (∃ d ∈ [[("environmentName", JVal.str "AzureCloud"), ("state", JVal.str "Enabled")],
            [("environmentName", JVal.str "AzureCloud"), ("state", JVal.str "Disabled")]],
      [("state", JVal.str "Enabled"), ("cloudName", JVal.str "AzureCloud")] = sub_transform d ∧
      jLookup [("state", JVal.str "Enabled"), ("cloudName", JVal.str "AzureCloud")] "cloudName" =
        some ((jLookup d "environmentName").getD .null)) ∧
    jLookup [("state", JVal.str "Enabled"), ("cloudName", JVal.str "AzureCloud")]
      "environmentName" = none ∧
    (false = false →
      stateEnabled [("state", JVal.str "Enabled"), ("cloudName", JVal.str "AzureCloud")] = true) := by
  exact list_subscriptions_renames_and_filters
    [[("environmentName", JVal.str "AzureCloud"), ("state", JVal.str "Enabled")],
     [("environmentName", JVal.str "AzureCloud"), ("state", JVal.str "Disabled")]]
    false
    [("state", JVal.str "Enabled"), ("cloudName", JVal.str "AzureCloud")]
    (by simp [list_subscriptions, sub_transform, removeKey, setVar, jLookup, stateEnabled])
